import Mathlib

set_option maxRecDepth 40000

/-!
Shallow embedding of `src/lambda_function.py` (a TMDB → S3 ingestion lambda)
and proofs about it.

The embedding models:
  * Python/JSON values (`JValue`) and `dict.get` with a default (`jgetD`);
  * Python `str(...)` on those values (`pyStr`);
  * `movie_to_row` (lines 127-152) and the fixed headers of `lambda_handler`
    (lines 196-214);
  * the pagination loop `fetch_all_pages` (lines 76-114), first abstractly
    over a per-page response oracle (the network + JSON layer collapsed to
    the pair the loop actually reads: `results` and `total_pages` after
    their `dict.get` defaults), and again effectfully inside the full
    pipeline model used for the client / handler claims;
  * `_make_tmdb_request` (lines 30-73) over an explicit environment
    (token, network, JSON parser), returning a log/effect trace together
    with an `Except` value standing for the Python exception flow;
  * the CSV serialization of `write_csv_to_s3` (lines 155-173): Python's
    `csv.writer` default dialect (comma delimiter, minimal double-quote
    quoting, CRLF line terminator), plus a standard RFC-4180 style reader
    used for the round-trip claim;
  * `lambda_handler` (lines 178-234) composing the above, with S3 puts as
    trace effects.
-/

/-- JSON / Python values as the loop and row mapper see them.  Numeric JSON
values are modelled as integers: no claim involves fractional values. -/
inductive JValue : Type where
  | jnull : JValue
  | jbool : Bool → JValue
  | jint  : Int → JValue
  | jstr  : String → JValue
  | jarr  : List JValue → JValue
  | jobj  : List (String × JValue) → JValue

open JValue

/-- A Python dict, as an association list with the first binding winning
(Python dicts have unique keys, so first-match lookup is exact). -/
abbrev JObj := List (String × JValue)

/-- Python `d.get(k)`: the value bound to `k`, if any. -/
def jget (o : JObj) (k : String) : Option JValue :=
  match o with
  | [] => none
  | (k', v) :: rest => if k' = k then some v else jget rest k

/-- Python `d.get(k, default)`. -/
def jgetD (o : JObj) (k : String) (default : JValue) : JValue :=
  (jget o k).getD default

mutual
/-- Python `str(...)` on the modelled values. -/
def pyStr : JValue → String
  | jnull => "None"
  | jbool true => "True"
  | jbool false => "False"
  | jint n => toString n
  | jstr s => s
  | jarr l => "[" ++ String.intercalate ", " (pyReprList l) ++ "]"
  | jobj _ => "\x7b...\x7d"

/-- Python `repr(...)`, as used by `str` on list elements.  String escaping
inside `repr` is not modelled beyond quoting; no claim exercises it. -/
def pyRepr : JValue → String
  | jstr s => "'" ++ s ++ "'"
  | v => pyStr v

def pyReprList : List JValue → List String
  | [] => []
  | v :: rest => pyRepr v :: pyReprList rest
end

/-- Model of `movie_to_row` (lines 127-152): map a TMDB movie JSON object
to a fixed 10-column row. -/
def movie_to_row (movie : JObj) : List JValue :=
  let genre_ids := jgetD movie "genre_ids" (jarr [])
  let genre_ids_str :=
    match genre_ids with
    | jarr l => String.intercalate "," (l.map pyStr)
    | jnull => ""
    | v => pyStr v
  [ jgetD movie "id" (jstr ""),
    jgetD movie "title" (jstr ""),
    jgetD movie "release_date" (jstr ""),
    jgetD movie "vote_average" (jstr ""),
    jgetD movie "vote_count" (jstr ""),
    jgetD movie "popularity" (jstr ""),
    jgetD movie "original_language" (jstr ""),
    jstr genre_ids_str,
    jstr (pyStr (jgetD movie "adult" (jstr ""))),
    jstr (pyStr (jgetD movie "video" (jstr ""))) ]

/-- The movie CSV header of `lambda_handler` (lines 196-207). -/
def movie_header : List String :=
  [ "id", "title", "release_date", "vote_average", "vote_count",
    "popularity", "original_language", "genre_ids", "adult", "video" ]

/-- The genres CSV header of `lambda_handler` (line 214). -/
def genres_header : List String := ["id", "name"]

/-- A genre row as built in `lambda_handler` (line 215). -/
def genre_to_row (g : JObj) : List JValue :=
  [jgetD g "id" (jstr ""), jgetD g "name" (jstr "")]

/-! ## The pagination loop, abstractly

`fetch_all_pages` (lines 76-114) interacts with the network only through
`_make_tmdb_request` and then reads `data.get("results", [])` and
`data.get("total_pages", 1)`.  For the pagination claims we abstract that
layer as a per-page oracle giving exactly those two values. -/

/-- What one page's successful response contributes to the loop: the
`results` list and the reported `total_pages` (after the `dict.get`
defaults of lines 92-93 have been applied). -/
structure PageResp (R : Type) where
  results : List R
  total_pages : Int

/-- Lines 96-98: `if total_pages > 500: total_pages = 500`. -/
def cappedTotal (tp : Int) : Int :=
  if tp > 500 then 500 else tp

/-- Line 106: `max_pages is not None and page >= max_pages`. -/
def stopByMax (max_pages : Option Int) (page : Nat) : Bool :=
  match max_pages with
  | some m => decide ((page : Int) ≥ m)
  | none => false

/-- The `while True` loop of lines 87-111, with lines 96-98 factored as
`cappedTotal`.  Returns the list of requested page numbers (in request
order) paired with the accumulated results.

The loop always terminates within 500 iterations: the continue branch
requires `page < total_pages ≤ 500`.  `fuel` makes the recursion
structural; it is kept at `500 - page`, so the `fuel = 0` arm below is
unreachable (at `fuel = 0`, `page = 500 ≥ total_pages` stops the loop
first). -/
def fetchLoop {R : Type} (resp : Nat → PageResp R) (max_pages : Option Int) :
    Nat → Nat → List Nat × List R
  | fuel, page =>
    let data := resp page
    let total_pages : Int := cappedTotal data.total_pages
    -- line 106: `if max_pages is not None and page >= max_pages: break`
    if stopByMax max_pages page then
      ([page], data.results)
    -- line 108: `if page >= total_pages: break`
    else if (page : Int) ≥ total_pages then
      ([page], data.results)
    else
      match fuel with
      | 0 => ([page], data.results)
      | fuel' + 1 =>
        let rest := fetchLoop resp max_pages fuel' (page + 1)
        (page :: rest.1, data.results ++ rest.2)

/-- Model of `fetch_all_pages` (lines 76-114): page starts at 1 (line 84), the
accumulator empty (line 85).  The first component is the sequence of page
numbers requested; the second is `all_results`. -/
def fetch_all_pages {R : Type} (resp : Nat → PageResp R)
    (max_pages : Option Int := none) : List Nat × List R :=
  fetchLoop resp max_pages 499 1

example :
    fetch_all_pages (fun p => PageResp.mk [p * 10, p * 10 + 1] 3) none =
      ([1, 2, 3], [10, 11, 20, 21, 30, 31]) := rfl

example :
    fetch_all_pages (fun p => PageResp.mk [p] 10) (some 2) =
      ([1, 2], [1, 2]) := rfl

example :
    (fetch_all_pages (R := Nat) (fun _ => PageResp.mk [] 700) none).1.length
      = 500 := by decide

/-! ### Loop unfolding lemmas -/

theorem cappedTotal_le (tp : Int) : cappedTotal tp ≤ 500 := by
  unfold cappedTotal; split <;> omega

theorem fetchLoop_stop {R : Type} (resp : Nat → PageResp R) (mp : Option Int)
    (page : Nat)
    (h : stopByMax mp page = true ∨
      (page : Int) ≥ cappedTotal (resp page).total_pages) :
    ∀ fuel, fetchLoop resp mp fuel page = ([page], (resp page).results) := by
  intro fuel
  rcases h with h | h
  · cases fuel <;> simp [fetchLoop, h]
  · cases fuel <;> simp [fetchLoop, h]

theorem fetchLoop_go {R : Type} (resp : Nat → PageResp R) (mp : Option Int)
    (fuel page : Nat)
    (h1 : stopByMax mp page = false)
    (h2 : (page : Int) < cappedTotal (resp page).total_pages) :
    fetchLoop resp mp (fuel + 1) page =
      (page :: (fetchLoop resp mp fuel (page + 1)).1,
       (resp page).results ++ (fetchLoop resp mp fuel (page + 1)).2) := by
  have h2' : ¬ ((page : Int) ≥ cappedTotal (resp page).total_pages) := by omega
  simp [fetchLoop, h1, h2']

/-- When the combined stop condition is exactly `n ≤ page` on the pages the
loop can reach, the loop starting at `page ≤ n` with enough fuel visits
exactly pages `page, page+1, ..., n` and concatenates their results in that
order. -/
theorem fetchLoop_range {R : Type} (resp : Nat → PageResp R) (mp : Option Int)
    (n : Nat)
    (hstop : ∀ page, 1 ≤ page →
      ((stopByMax mp page = true ∨
        (page : Int) ≥ cappedTotal (resp page).total_pages) ↔ n ≤ page)) :
    ∀ fuel page, 1 ≤ page → page ≤ n → n ≤ page + fuel →
      fetchLoop resp mp fuel page =
        (List.range' page (n - page + 1),
         ((List.range' page (n - page + 1)).map fun p => (resp p).results).flatten) := by
  intro fuel
  induction fuel with
  | zero =>
    intro page h1 h2 h3
    have hpn : page = n := by omega
    have hs : stopByMax mp page = true ∨
        (page : Int) ≥ cappedTotal (resp page).total_pages :=
      (hstop page h1).mpr (by omega)
    rw [fetchLoop_stop resp mp page hs]
    simp [hpn]
  | succ fuel ih =>
    intro page h1 h2 h3
    rcases eq_or_lt_of_le h2 with hpn | hpn
    · have hs : stopByMax mp page = true ∨
          (page : Int) ≥ cappedTotal (resp page).total_pages :=
        (hstop page h1).mpr (by omega)
      rw [fetchLoop_stop resp mp page hs]
      simp [hpn]
    · have hns : ¬ (stopByMax mp page = true ∨
          (page : Int) ≥ cappedTotal (resp page).total_pages) := by
        rw [hstop page h1]; omega
      push_neg at hns
      have hgo := fetchLoop_go resp mp fuel page
        (by simpa using hns.1) (by omega)
      rw [hgo, ih (page + 1) (by omega) (by omega) (by omega)]
      have hlen : n - page + 1 = (n - (page + 1) + 1) + 1 := by omega
      rw [hlen]
      simp [List.range'_succ]

/-! ### Claim C1 -/

/-- C1: with every response reporting the same `total_pages = T ≥ 1` and no
`max_pages`, `fetch_all_pages` requests exactly pages `1..min(T,500)` in
increasing order (so exactly `min(T,500)` requests), returns the per-page
results concatenated in page order, and the returned length is the sum of
the per-page result lengths. -/
theorem fetch_all_pages_no_cap {R : Type} (resp : Nat → PageResp R) (T : Int)
    (hT : 1 ≤ T) (hresp : ∀ p, (resp p).total_pages = T) :
    (fetch_all_pages resp none).1 = List.range' 1 (T.toNat ⊓ 500) ∧
    (fetch_all_pages resp none).1.length = T.toNat ⊓ 500 ∧
    (fetch_all_pages resp none).2 =
      ((List.range' 1 (T.toNat ⊓ 500)).map fun p => (resp p).results).flatten ∧
    (fetch_all_pages resp none).2.length =
      ((List.range' 1 (T.toNat ⊓ 500)).map fun p => (resp p).results.length).sum := by
  have hcap : cappedTotal T = ((T.toNat ⊓ 500 : Nat) : Int) := by
    unfold cappedTotal; split <;> omega
  have hstop : ∀ page, 1 ≤ page →
      ((stopByMax none page = true ∨
        (page : Int) ≥ cappedTotal (resp page).total_pages) ↔
        T.toNat ⊓ 500 ≤ page) := by
    intro page _
    rw [hresp page, hcap]
    simp [stopByMax]
  have h := fetchLoop_range resp none (T.toNat ⊓ 500) hstop 499 1
    (by omega) (by omega) (by omega)
  have hn1 : T.toNat ⊓ 500 - 1 + 1 = T.toNat ⊓ 500 := by omega
  rw [hn1] at h
  unfold fetch_all_pages
  rw [h]
  refine ⟨rfl, ?_, rfl, ?_⟩
  · simp
  · simp [List.length_flatten, Function.comp_def]

/-- Witness for C1 at `T = 2` with one result per page. -/
theorem fetch_all_pages_no_cap_witness :
    (fetch_all_pages (fun p => PageResp.mk [p] 2) none).1 =
      List.range' 1 ((2 : Int).toNat ⊓ 500) ∧
    (fetch_all_pages (fun p => PageResp.mk [p] 2) none).1.length =
      (2 : Int).toNat ⊓ 500 ∧
    (fetch_all_pages (fun p => PageResp.mk [p] 2) none).2 =
      ((List.range' 1 ((2 : Int).toNat ⊓ 500)).map
        fun p => (PageResp.mk [p] (2 : Int)).results).flatten ∧
    (fetch_all_pages (fun p => PageResp.mk [p] 2) none).2.length =
      ((List.range' 1 ((2 : Int).toNat ⊓ 500)).map
        fun p => (PageResp.mk [p] (2 : Int)).results.length).sum :=
  fetch_all_pages_no_cap (fun p => PageResp.mk [p] 2) 2 (by decide)
    (fun _ => rfl)

/-! ### Claim C2 -/

theorem fetchLoop_zero_fst {R : Type} (resp : Nat → PageResp R)
    (mp : Option Int) (page : Nat) :
    (fetchLoop resp mp 0 page).1 = [page] := by
  simp only [fetchLoop]
  split_ifs <;> rfl

theorem fetchLoop_pages_bounded {R : Type} (resp : Nat → PageResp R)
    (mp : Option Int) :
    ∀ fuel page q, page ≤ 500 → q ∈ (fetchLoop resp mp fuel page).1 →
      page ≤ q ∧ q ≤ 500 := by
  intro fuel
  induction fuel with
  | zero =>
    intro page q hp hq
    rw [fetchLoop_zero_fst] at hq
    simp at hq
    omega
  | succ fuel ih =>
    intro page q hp hq
    by_cases h1 : stopByMax mp page = true
    · rw [fetchLoop_stop resp mp page (Or.inl h1)] at hq
      simp at hq
      omega
    · by_cases h2 : (page : Int) ≥ cappedTotal (resp page).total_pages
      · rw [fetchLoop_stop resp mp page (Or.inr h2)] at hq
        simp at hq
        omega
      · have h1' : stopByMax mp page = false := by simpa using h1
        rw [fetchLoop_go resp mp fuel page h1' (by omega)] at hq
        simp at hq
        rcases hq with rfl | hq
        · omega
        · have hcap := cappedTotal_le (resp page).total_pages
          have hlt : page < 500 := by omega
          have := ih (page + 1) q (by omega) hq
          omega

/-- C2: whatever the upstream responses and `max_pages` (including `none`
and values above 500), every requested page number lies in `[1, 500]`; in
particular no page above 500 is ever requested, even when responses report
`total_pages > 500`. -/
theorem fetch_all_pages_page_in_range {R : Type} (resp : Nat → PageResp R)
    (max_pages : Option Int) (q : Nat)
    (hq : q ∈ (fetch_all_pages resp max_pages).1) : 1 ≤ q ∧ q ≤ 500 := by
  have h := fetchLoop_pages_bounded resp max_pages 499 1 q (by omega) hq
  omega

/-- Witness for C2: page 1 is requested when `total_pages = 700` with a
`max_pages` of 1000, and it is within bounds. -/
theorem fetch_all_pages_page_in_range_witness :
    1 ∈ (fetch_all_pages (fun _ => PageResp.mk ([] : List Nat) 700)
          (some 1000)).1 ∧
    (1 ≤ 1 ∧ 1 ≤ 500) :=
  ⟨by decide,
   fetch_all_pages_page_in_range (fun _ => PageResp.mk ([] : List Nat) 700)
     (some 1000) 1 (by decide)⟩

/-! ### Claim C3

The claim quantifies over *every* integer `M < T`.  It fails at `M = 0`
(the loop body runs once before any stop check, so one request is made,
not zero) and at `M = 600 < T = 1000` (the 500-page clamp stops the loop
after 500 requests, not 600).  The amended claim restricts to
`1 ≤ M ≤ 500`. -/

/-- C3 counterexample: with `max_pages = 0 < total_pages = 1` the code
performs 1 request (the claim demands 0); with
`max_pages = 600 < total_pages = 1000` it performs 500 requests (the claim
demands 600). -/
theorem fetch_all_pages_max_pages_counterexample :
    ((fetch_all_pages (fun _ => PageResp.mk ([] : List Nat) 1)
        (some 0)).1.length = 1 ∧
      ¬ (fetch_all_pages (fun _ => PageResp.mk ([] : List Nat) 1)
        (some 0)).1.length = 0) ∧
    ((fetch_all_pages (fun _ => PageResp.mk ([] : List Nat) 1000)
        (some 600)).1.length = 500 ∧
      ¬ (fetch_all_pages (fun _ => PageResp.mk ([] : List Nat) 1000)
        (some 600)).1.length = 600) := by
  refine ⟨⟨by decide, by decide⟩, ⟨by decide, by decide⟩⟩

/-- C3 (amended): for `1 ≤ M ≤ 500` and every response sequence reporting
a constant `total_pages = T` with `M < T`, `fetch_all_pages` with
`max_pages = M` performs exactly `M` requests (pages `1..M`). -/
theorem fetch_all_pages_max_pages_exact {R : Type} (resp : Nat → PageResp R)
    (T M : Int) (hM1 : 1 ≤ M) (hM5 : M ≤ 500) (hMT : M < T)
    (hresp : ∀ p, (resp p).total_pages = T) :
    (fetch_all_pages resp (some M)).1 = List.range' 1 M.toNat ∧
    (fetch_all_pages resp (some M)).1.length = M.toNat := by
  have hcap : M ≤ cappedTotal T ∧ cappedTotal T ≤ 500 := by
    unfold cappedTotal; constructor <;> (split <;> omega)
  have hstop : ∀ page, 1 ≤ page →
      ((stopByMax (some M) page = true ∨
        (page : Int) ≥ cappedTotal (resp page).total_pages) ↔
        M.toNat ≤ page) := by
    intro page _
    rw [hresp page]
    simp [stopByMax]
    omega
  have h := fetchLoop_range resp (some M) M.toNat hstop 499 1
    (by omega) (by omega) (by omega)
  have hn1 : M.toNat - 1 + 1 = M.toNat := by omega
  rw [hn1] at h
  unfold fetch_all_pages
  rw [h]
  exact ⟨rfl, by simp⟩

/-- Witness for the amended C3 at `M = 1 < T = 2`. -/
theorem fetch_all_pages_max_pages_exact_witness :
    (fetch_all_pages (fun p => PageResp.mk [p] 2) (some 1)).1 =
      List.range' 1 (1 : Int).toNat ∧
    (fetch_all_pages (fun p => PageResp.mk [p] 2) (some 1)).1.length =
      (1 : Int).toNat :=
  fetch_all_pages_max_pages_exact (fun p => PageResp.mk [p] 2) 2 1
    (by decide) (by decide) (by decide) (fun _ => rfl)

/-! ### Claim C10 -/

theorem fetchLoop_head {R : Type} (resp : Nat → PageResp R) (mp : Option Int)
    (fuel page : Nat) :
    ((fetchLoop resp mp fuel page).1).head? = some page := by
  cases fuel <;> (simp only [fetchLoop]; split_ifs <;> rfl)

/-- C10: the loop body runs before any stop check, so the first request is
always page 1; in particular with `max_pages ≤ 0` exactly one request is
made (page 1) and that page's results are returned. -/
theorem fetch_all_pages_always_requests_once {R : Type}
    (resp : Nat → PageResp R) (max_pages : Option Int) (M : Int)
    (hM : M ≤ 0) :
    (fetch_all_pages resp max_pages).1.head? = some 1 ∧
    fetch_all_pages resp (some M) = ([1], (resp 1).results) := by
  constructor
  · exact fetchLoop_head resp max_pages 499 1
  · have h : stopByMax (some M) 1 = true := by
      simp [stopByMax]
      omega
    exact fetchLoop_stop resp (some M) 1 (Or.inl h) 499

/-- Witness for C10 at `max_pages = 0`. -/
theorem fetch_all_pages_always_requests_once_witness :
    (fetch_all_pages (fun p => PageResp.mk [p] 5) none).1.head? = some 1 ∧
    fetch_all_pages (fun p => PageResp.mk [p] 5) (some 0) =
      ([1], (PageResp.mk [1] (5 : Int)).results) :=
  fetch_all_pages_always_requests_once (fun p => PageResp.mk [p] 5) none 0
    (by decide)

/-! ### Claim C4 -/

/-- C4: `movie_to_row` on `{"id": 5, "title": "X", "genre_ids": [1,2,3],
"adult": false, "video": true}` (all other fields absent) yields the exact
10-element row with empty strings for the absent fields, the genre ids
joined with commas, and the booleans stringified as `False` / `True`. -/
theorem movie_to_row_example_row :
    movie_to_row
      [("id", jint 5), ("title", jstr "X"),
       ("genre_ids", jarr [jint 1, jint 2, jint 3]),
       ("adult", jbool false), ("video", jbool true)] =
    [jint 5, jstr "X", jstr "", jstr "", jstr "", jstr "", jstr "",
     jstr "1,2,3", jstr "False", jstr "True"] := by
  simp [movie_to_row, jgetD, jget, pyStr, pyRepr, pyReprList]
  decide

/-! ### Claim C5 -/

/-- C5: `movie_to_row` is total (it always yields a 10-column row); every
whitelisted field absent from the input maps to an empty string in its
column, and a `genre_ids` field that is absent, the empty list, or null
maps to the empty string in column 7. -/
theorem movie_to_row_total_defaults (movie : JObj) :
    (movie_to_row movie).length = 10 ∧
    (jget movie "id" = none → (movie_to_row movie)[0]? = some (jstr "")) ∧
    (jget movie "title" = none → (movie_to_row movie)[1]? = some (jstr "")) ∧
    (jget movie "release_date" = none →
      (movie_to_row movie)[2]? = some (jstr "")) ∧
    (jget movie "vote_average" = none →
      (movie_to_row movie)[3]? = some (jstr "")) ∧
    (jget movie "vote_count" = none →
      (movie_to_row movie)[4]? = some (jstr "")) ∧
    (jget movie "popularity" = none →
      (movie_to_row movie)[5]? = some (jstr "")) ∧
    (jget movie "original_language" = none →
      (movie_to_row movie)[6]? = some (jstr "")) ∧
    (jget movie "genre_ids" = none ∨ jget movie "genre_ids" = some (jarr []) ∨
        jget movie "genre_ids" = some jnull →
      (movie_to_row movie)[7]? = some (jstr "")) ∧
    (jget movie "adult" = none → (movie_to_row movie)[8]? = some (jstr "")) ∧
    (jget movie "video" = none → (movie_to_row movie)[9]? = some (jstr "")) := by
  refine ⟨rfl, ?_, ?_, ?_, ?_, ?_, ?_, ?_, ?_, ?_, ?_⟩
  · intro h; simp [movie_to_row, jgetD, h]
  · intro h; simp [movie_to_row, jgetD, h]
  · intro h; simp [movie_to_row, jgetD, h]
  · intro h; simp [movie_to_row, jgetD, h]
  · intro h; simp [movie_to_row, jgetD, h]
  · intro h; simp [movie_to_row, jgetD, h]
  · intro h; simp [movie_to_row, jgetD, h]
  · rintro (h | h | h) <;> (simp [movie_to_row, jgetD, h, pyStr]; try decide)
  · intro h; simp [movie_to_row, jgetD, h, pyStr]
  · intro h; simp [movie_to_row, jgetD, h, pyStr]

/-- Witness for C5 at the empty object: the row has 10 columns, and the
`id` and `genre_ids` columns default to the empty string. -/
theorem movie_to_row_total_defaults_witness :
    (movie_to_row []).length = 10 ∧
    (movie_to_row [])[0]? = some (jstr "") ∧
    (movie_to_row [])[7]? = some (jstr "") :=
  ⟨(movie_to_row_total_defaults []).1,
   (movie_to_row_total_defaults []).2.1 rfl,
   (movie_to_row_total_defaults []).2.2.2.2.2.2.2.2.1 (Or.inl rfl)⟩

/-! ## CSV serialization (`write_csv_to_s3`, lines 155-173)

`csv.writer` with the default dialect: comma delimiter, `"` quote
character, minimal quoting (a field is quoted iff it contains the
delimiter, the quote character, or a line-break character, with embedded
quote characters doubled), and CRLF line terminator. -/

/-- Whether `csv.writer` (QUOTE_MINIMAL) must quote this field: it
contains the delimiter, the quote character, or a line-break character. -/
def csvNeedsQuote (s : String) : Bool :=
  s.toList.any fun c => c = ',' || c = '"' || c = '\r' || c = '\n'

/-- Double every embedded quote character. -/
def csvEscapeQuotes : List Char → List Char
  | [] => []
  | '"' :: cs => '"' :: '"' :: csvEscapeQuotes cs
  | c :: cs => c :: csvEscapeQuotes cs

/-- One serialized field. -/
def csvField (s : String) : String :=
  if csvNeedsQuote s then
    "\"" ++ String.mk (csvEscapeQuotes s.toList) ++ "\""
  else s

/-- One serialized record, CRLF-terminated.  `csv.writer` stringifies each
cell with `str`. -/
def csvLine (cells : List String) : String :=
  String.intercalate "," (cells.map csvField) ++ "\r\n"

/-- The byte payload built by `write_csv_to_s3` (lines 161-166): the header
row followed by each data row. -/
def csvContent (header : List String) (rows : List (List JValue)) : String :=
  csvLine header ++ String.join (rows.map fun r => csvLine (r.map pyStr))

/-- A standard RFC-4180 style reader: fields split on commas, records on
CRLF (or LF), `"`-quoted fields with doubled embedded quotes. -/
def csvParseGo : List Char → Bool → String → List String →
    List (List String) → List (List String)
  | [], _, field, row, acc =>
    if field = "" ∧ row = [] then acc.reverse
    else ((row ++ [field]) :: acc).reverse
  | '"' :: '"' :: cs, true, field, row, acc =>
    csvParseGo cs true (field.push '"') row acc
  | '"' :: cs, true, field, row, acc =>
    csvParseGo cs false field row acc
  | c :: cs, true, field, row, acc =>
    csvParseGo cs true (field.push c) row acc
  | '"' :: cs, false, field, row, acc =>
    csvParseGo cs true field row acc
  | ',' :: cs, false, field, row, acc =>
    csvParseGo cs false "" (row ++ [field]) acc
  | '\r' :: '\n' :: cs, false, field, row, acc =>
    csvParseGo cs false "" [] ((row ++ [field]) :: acc)
  | '\n' :: cs, false, field, row, acc =>
    csvParseGo cs false "" [] ((row ++ [field]) :: acc)
  | c :: cs, false, field, row, acc =>
    csvParseGo cs false (field.push c) row acc

def csvParse (s : String) : List (List String) :=
  csvParseGo s.toList false "" [] []

/-! ### Claim C9 -/

/-- C9: serializing the genres table with header `["id","name"]` and rows
`[[1,"Action"],[2,"Comedy"]]` the way `write_csv_to_s3` does, then parsing
the text back with a standard delimited-text reader, yields exactly the
original header and row values as strings. -/
theorem write_csv_round_trip :
    csvParse (csvContent genres_header
      [[jint 1, jstr "Action"], [jint 2, jstr "Comedy"]]) =
    [["id", "name"], ["1", "Action"], ["2", "Comedy"]] := by
  simp [csvContent, genres_header, csvLine, csvField, csvNeedsQuote, pyStr]
  decide

/-! ## The effectful pipeline

An explicit environment stands for the process state the module reads
(lines 15-27): the `TMDB_API_TOKEN` environment variable, the network
(`urllib.request.urlopen`), the JSON decoder (`json.loads`, stdlib, kept
abstract), and the S3 client (`boto3`).  Each operation returns the list
of observable effects it performed (log lines, HTTP requests, S3 puts)
together with an `Except` standing for Python's exception flow. -/

structure HttpResponse where
  status : Int
  body : String

/-- The Python exceptions this module can raise. -/
inductive PyErr where
  | runtimeError : String → PyErr
  | transportError : String → PyErr
  | jsonDecodeError : String → PyErr
  | typeError : String → PyErr
  | storageError : String → PyErr
deriving DecidableEq

/-- Observable actions, in program order. -/
inductive Effect where
  | logInfo : String → Effect
  | logWarning : String → Effect
  | logError : String → Effect
  | httpGet : String → Effect
  | s3Put : String → String → String → Effect
deriving DecidableEq

/-- The process environment and external collaborators. -/
structure Env where
  token : Option String
  net : String → Except String HttpResponse
  jsonParse : String → Option JValue
  s3 : String → String → Except String Unit

def S3_BUCKET : String := "tmdb-data-071125"

def TOP_RATED_KEY : String := "tmdb/raw/top_rated/top_rated_movies.csv"

def UPCOMING_KEY : String := "tmdb/raw/upcoming/upcoming_movies.csv"

def GENRES_KEY : String := "tmdb/raw/genres/movie_genres.csv"

def TMDB_BASE_URL : String := "https://api.themoviedb.org/3"

/-- Line 34, `if not TMDB_API_TOKEN:` — true when the variable is unset
or the empty string. -/
def tokenFalsy : Option String → Bool
  | none => true
  | some s => s = ""

/-- Model of `urllib.parse.urlencode` on string-valued parameters.  Escaping
is not modelled; no claim exercises characters that need it. -/
def urlencode (params : List (String × String)) : String :=
  String.intercalate "&" (params.map fun kv => kv.1 ++ "=" ++ kv.2)

/-- The URL built in lines 41-44. -/
def tmdbUrl (endpoint : String) (params : List (String × String)) : String :=
  let query := urlencode params
  if query = "" then TMDB_BASE_URL ++ endpoint
  else TMDB_BASE_URL ++ endpoint ++ "?" ++ query

/-- Model of `_make_tmdb_request` (lines 30-73). -/
def _make_tmdb_request (env : Env) (endpoint : String)
    (params : List (String × String)) :
    List Effect × Except PyErr JValue :=
  if tokenFalsy env.token then
    ([Effect.logError "TMDB_API_TOKEN environment variable is not set"],
     Except.error
       (PyErr.runtimeError "TMDB_API_TOKEN environment variable is required"))
  else
    let url := tmdbUrl endpoint params
    let effs := [Effect.logInfo ("Requesting TMDB URL: " ++ url),
                 Effect.httpGet url]
    match env.net url with
    | Except.error e =>
      (effs ++ [Effect.logError ("HTTP request to TMDB failed: " ++ e)],
       Except.error (PyErr.transportError e))
    | Except.ok r =>
      if r.status < 200 ∨ r.status ≥ 300 then
        (effs ++ [Effect.logError
            ("TMDB API returned status " ++ toString r.status ++ ": "
              ++ r.body)],
         Except.error
           (PyErr.runtimeError ("TMDB API error " ++ toString r.status)))
      else
        match env.jsonParse r.body with
        | none =>
          (effs ++ [Effect.logError
              ("Failed to parse TMDB response as JSON, body: " ++ r.body)],
           Except.error (PyErr.jsonDecodeError r.body))
        | some d => (effs, Except.ok d)

/-- Line 104, `all_results.extend(results)`, needs the value to be a
list.  (Python would accept any iterable; other iterables are not
modelled, no claim exercises them.) -/
def asResults : JValue → Except PyErr (List JValue)
  | jarr l => Except.ok l
  | _ => Except.error (PyErr.typeError "results is not a list")

/-- Line 96, `total_pages > 500`, needs an integer. -/
def asInt : JValue → Except PyErr Int
  | jint n => Except.ok n
  | _ => Except.error (PyErr.typeError "total_pages is not an int")

/-- Lines 92-93, `data.get(...)`, need the response to be a dict. -/
def asObj : JValue → Except PyErr JObj
  | jobj o => Except.ok o
  | _ => Except.error (PyErr.typeError "response is not a dict")

/-- The loop of lines 87-111 over the real client, effects included.
Same fuel discipline as `fetchLoop`. -/
def fetchLoopE (env : Env) (endpoint : String)
    (extra : List (String × String)) (mp : Option Int) :
    Nat → Nat → List Effect × Except PyErr (List JValue)
  | fuel, page =>
    let params := extra ++ [("page", toString page)]
    let req := _make_tmdb_request env endpoint params
    match req.2 with
    | Except.error e => (req.1, Except.error e)
    | Except.ok data =>
      match asObj data with
      | Except.error e => (req.1, Except.error e)
      | Except.ok d =>
        match asResults (jgetD d "results" (jarr [])) with
        | Except.error e => (req.1, Except.error e)
        | Except.ok results =>
          match asInt (jgetD d "total_pages" (jint 1)) with
          | Except.error e => (req.1, Except.error e)
          | Except.ok tp0 =>
            let total_pages := cappedTotal tp0
            let effs := req.1
              ++ (if tp0 > 500 then
                   [Effect.logWarning
                     (endpoint ++ ": total_pages > 500, capping at 500")]
                  else [])
              ++ [Effect.logInfo
                   ("Fetched page " ++ toString page ++ " of "
                     ++ toString total_pages ++ " from " ++ endpoint)]
            if stopByMax mp page then (effs, Except.ok results)
            else if (page : Int) ≥ total_pages then (effs, Except.ok results)
            else
              match fuel with
              | 0 => (effs, Except.ok results)
              | fuel' + 1 =>
                let rest := fetchLoopE env endpoint extra mp fuel' (page + 1)
                (effs ++ rest.1,
                 match rest.2 with
                 | Except.error e => Except.error e
                 | Except.ok rs => Except.ok (results ++ rs))

/-- Model of `fetch_all_pages` (lines 76-114) over the real client. -/
def fetchAllPagesE (env : Env) (endpoint : String)
    (extra : List (String × String)) (mp : Option Int) :
    List Effect × Except PyErr (List JValue) :=
  fetchLoopE env endpoint extra mp 499 1

/-- Model of `fetch_genres` (lines 117-124). -/
def fetch_genres (env : Env) : List Effect × Except PyErr (List JValue) :=
  let req := _make_tmdb_request env "/genre/movie/list"
    [("language", "en-US")]
  match req.2 with
  | Except.error e => (req.1, Except.error e)
  | Except.ok data =>
    match asObj data with
    | Except.error e => (req.1, Except.error e)
    | Except.ok d =>
      match asResults (jgetD d "genres" (jarr [])) with
      | Except.error e => (req.1, Except.error e)
      | Except.ok genres =>
        (req.1 ++ [Effect.logInfo
          ("Fetched " ++ toString genres.length ++ " genres")],
         Except.ok genres)

/-- Model of `write_csv_to_s3` (lines 155-173): serialize and upload one
table. -/
def write_csv_to_s3 (env : Env) (s3_key : String) (header : List String)
    (rows : List (List JValue)) : List Effect × Except PyErr Unit :=
  let content := csvContent header rows
  let effs := [Effect.logInfo
      ("Writing CSV to s3://" ++ S3_BUCKET ++ "/" ++ s3_key),
    Effect.s3Put S3_BUCKET s3_key content]
  match env.s3 s3_key content with
  | Except.error e => (effs, Except.error (PyErr.storageError e))
  | Except.ok _ =>
    (effs ++ [Effect.logInfo
      ("Successfully wrote s3://" ++ S3_BUCKET ++ "/" ++ s3_key)],
     Except.ok ())

/-- Line 210/211: `[movie_to_row(m) for m in movies]`.  Each element must
be a dict for `m.get` to exist. -/
def moviesToRows : List JValue → Except PyErr (List (List JValue))
  | [] => Except.ok []
  | m :: ms =>
    match m with
    | jobj o =>
      match moviesToRows ms with
      | Except.ok rs => Except.ok (movie_to_row o :: rs)
      | Except.error e => Except.error e
    | _ => Except.error (PyErr.typeError "movie is not a dict")

/-- Line 215: `[[g.get("id", ""), g.get("name", "")] for g in genres]`. -/
def genresToRows : List JValue → Except PyErr (List (List JValue))
  | [] => Except.ok []
  | g :: gs =>
    match g with
    | jobj o =>
      match genresToRows gs with
      | Except.ok rs => Except.ok (genre_to_row o :: rs)
      | Except.error e => Except.error e
    | _ => Except.error (PyErr.typeError "genre is not a dict")

/-- The success payload of lines 224-233 (the `json.dumps` serialization
of the body is left structured). -/
structure LambdaResult where
  statusCode : Int
  bucket : String
  keys : List String
  top_rated_count : Nat
  upcoming_count : Nat
  genres_count : Nat

/-- Sequence two effectful steps, short-circuiting on an exception. -/
def effBind {α β : Type} (x : List Effect × Except PyErr α)
    (f : α → List Effect × Except PyErr β) :
    List Effect × Except PyErr β :=
  match x.2 with
  | Except.error e => (x.1, Except.error e)
  | Except.ok a => (x.1 ++ (f a).1, (f a).2)

/-- Lift a pure `Except` computation. -/
def effPure {α : Type} (x : Except PyErr α) : List Effect × Except PyErr α :=
  ([], x)

/-- Model of `lambda_handler` (lines 178-234). -/
def lambda_handler (env : Env) : List Effect × Except PyErr LambdaResult :=
  effBind ([Effect.logInfo "TMDB Lambda execution started"],
           Except.ok ()) fun _ =>
  effBind (fetchAllPagesE env "/movie/top_rated" [("language", "en-US")]
            none) fun top_rated_movies =>
  effBind (fetchAllPagesE env "/movie/upcoming" [("language", "en-US")]
            none) fun upcoming_movies =>
  effBind (fetch_genres env) fun genres =>
  effBind (effPure (moviesToRows top_rated_movies)) fun top_rated_rows =>
  effBind (effPure (moviesToRows upcoming_movies)) fun upcoming_rows =>
  effBind (effPure (genresToRows genres)) fun genres_rows =>
  effBind (write_csv_to_s3 env TOP_RATED_KEY movie_header
            top_rated_rows) fun _ =>
  effBind (write_csv_to_s3 env UPCOMING_KEY movie_header
            upcoming_rows) fun _ =>
  effBind (write_csv_to_s3 env GENRES_KEY genres_header
            genres_rows) fun _ =>
  ([Effect.logInfo "TMDB Lambda execution completed successfully"],
   Except.ok
     { statusCode := 200
       bucket := S3_BUCKET
       keys := [TOP_RATED_KEY, UPCOMING_KEY, GENRES_KEY]
       top_rated_count := top_rated_rows.length
       upcoming_count := upcoming_rows.length
       genres_count := genres_rows.length })

/-! ### Claim C6

Lines 63-65 raise `RuntimeError(f"TMDB API error {status_code}")`: the
exception carries the status code but *not* the response body; the body
appears only in the `logger.error` line.  The claim as stated (the error
carries both) is therefore false. -/

/-- C6 counterexample: for a 404 response with body `"SECRETBODY"`, the
raised API error is exactly `RuntimeError "TMDB API error 404"`, and the
body text does not occur in it. -/
theorem make_tmdb_request_error_counterexample :
    (_make_tmdb_request
        ⟨some "t", fun _ => Except.ok ⟨404, "SECRETBODY"⟩,
         fun _ => none, fun _ _ => Except.ok ()⟩
        "/movie/top_rated" []).2 =
      Except.error (PyErr.runtimeError "TMDB API error 404") ∧
    ¬ "SECRETBODY".toList <:+: "TMDB API error 404".toList :=
  ⟨rfl, by decide⟩

/-- C6 (amended): on a response status outside `[200, 300)` the request
fails with an API error carrying the numeric status code; the raw body
text appears in the logged error line (not in the raised error). -/
theorem make_tmdb_request_non2xx (env : Env) (endpoint : String)
    (params : List (String × String)) (r : HttpResponse)
    (htok : tokenFalsy env.token = false)
    (hnet : env.net (tmdbUrl endpoint params) = Except.ok r)
    (hst : r.status < 200 ∨ r.status ≥ 300) :
    (_make_tmdb_request env endpoint params).2 =
      Except.error
        (PyErr.runtimeError ("TMDB API error " ++ toString r.status)) ∧
    Effect.logError
        ("TMDB API returned status " ++ toString r.status ++ ": " ++ r.body)
      ∈ (_make_tmdb_request env endpoint params).1 := by
  constructor <;> simp [_make_tmdb_request, htok, hnet, hst]

/-- Witness for the amended C6 at a concrete 404 response. -/
theorem make_tmdb_request_non2xx_witness :
    (_make_tmdb_request
        ⟨some "t", fun _ => Except.ok ⟨404, "nope"⟩,
         fun _ => none, fun _ _ => Except.ok ()⟩
        "/movie/upcoming" []).2 =
      Except.error
        (PyErr.runtimeError ("TMDB API error " ++ toString (404 : Int))) ∧
    Effect.logError
        ("TMDB API returned status " ++ toString (404 : Int) ++ ": "
          ++ "nope")
      ∈ (_make_tmdb_request
        ⟨some "t", fun _ => Except.ok ⟨404, "nope"⟩,
         fun _ => none, fun _ _ => Except.ok ()⟩
        "/movie/upcoming" []).1 :=
  make_tmdb_request_non2xx
    ⟨some "t", fun _ => Except.ok ⟨404, "nope"⟩,
     fun _ => none, fun _ _ => Except.ok ()⟩
    "/movie/upcoming" [] ⟨404, "nope"⟩ rfl rfl (by decide)

/-! ### Claim C7 -/

/-- Network or object-store effects, as opposed to log lines. -/
def isNetworkOrStorageEffect : Effect → Bool
  | Effect.httpGet _ => true
  | Effect.s3Put _ _ _ => true
  | _ => false

/-- C7: with the bearer credential absent (or empty), the invocation fails
with the configuration error, and its whole effect trace contains no
network request and no object-store write. -/
theorem lambda_handler_missing_token (env : Env)
    (h : tokenFalsy env.token = true) :
    (lambda_handler env).2 =
      Except.error
        (PyErr.runtimeError
          "TMDB_API_TOKEN environment variable is required") ∧
    (lambda_handler env).1.all
      (fun e => ! isNetworkOrStorageEffect e) = true := by
  constructor <;>
    simp [lambda_handler, effBind, fetchAllPagesE, fetchLoopE,
      _make_tmdb_request, h, isNetworkOrStorageEffect]

/-- Witness for C7 with the token unset. -/
theorem lambda_handler_missing_token_witness :
    (lambda_handler
        ⟨none, fun _ => Except.error "unreachable",
         fun _ => none, fun _ _ => Except.ok ()⟩).2 =
      Except.error
        (PyErr.runtimeError
          "TMDB_API_TOKEN environment variable is required") ∧
    (lambda_handler
        ⟨none, fun _ => Except.error "unreachable",
         fun _ => none, fun _ _ => Except.ok ()⟩).1.all
      (fun e => ! isNetworkOrStorageEffect e) = true :=
  lambda_handler_missing_token
    ⟨none, fun _ => Except.error "unreachable",
     fun _ => none, fun _ _ => Except.ok ()⟩ rfl

/-! ### Claim C8 -/

theorem moviesToRows_lengths (ms : List JValue) :
    ∀ rs, moviesToRows ms = Except.ok rs → ∀ r ∈ rs, r.length = 10 := by
  induction ms with
  | nil =>
    intro rs h r hr
    simp only [moviesToRows, Except.ok.injEq] at h
    subst h
    simp at hr
  | cons m ms ih =>
    intro rs h r hr
    cases m <;> simp only [moviesToRows] at h
    case jobj o =>
      cases hms : moviesToRows ms with
      | error e => rw [hms] at h; exact absurd h (by simp)
      | ok rs' =>
        rw [hms] at h
        have h' : movie_to_row o :: rs' = rs := by simpa using h
        rw [← h'] at hr
        rcases List.mem_cons.mp hr with rfl | hr2
        · rfl
        · exact ih rs' hms r hr2
    all_goals exact absurd h (by simp)

theorem genresToRows_lengths (gs : List JValue) :
    ∀ rs, genresToRows gs = Except.ok rs → ∀ r ∈ rs, r.length = 2 := by
  induction gs with
  | nil =>
    intro rs h r hr
    simp only [genresToRows, Except.ok.injEq] at h
    subst h
    simp at hr
  | cons g gs ih =>
    intro rs h r hr
    cases g <;> simp only [genresToRows] at h
    case jobj o =>
      cases hgs : genresToRows gs with
      | error e => rw [hgs] at h; exact absurd h (by simp)
      | ok rs' =>
        rw [hgs] at h
        have h' : genre_to_row o :: rs' = rs := by simpa using h
        rw [← h'] at hr
        rcases List.mem_cons.mp hr with rfl | hr2
        · rfl
        · exact ih rs' hgs r hr2
    all_goals exact absurd h (by simp)

/-- C8: the movie tables carry the declared 10-column header and the genre
table the declared 2-column header, and every data row the handler builds
for them has exactly as many columns as its table's header. -/
theorem tables_wellformed (movies genres : List JValue)
    (mrows grows : List (List JValue))
    (hm : moviesToRows movies = Except.ok mrows)
    (hg : genresToRows genres = Except.ok grows) :
    movie_header.length = 10 ∧ genres_header.length = 2 ∧
    (∀ r ∈ mrows, r.length = movie_header.length) ∧
    (∀ r ∈ grows, r.length = genres_header.length) :=
  ⟨rfl, rfl,
   fun r hr => moviesToRows_lengths movies mrows hm r hr,
   fun r hr => genresToRows_lengths genres grows hg r hr⟩

/-- Witness for C8 on a one-movie, one-genre input. -/
theorem tables_wellformed_witness :
    (movie_to_row []).length = movie_header.length ∧
    (genre_to_row []).length = genres_header.length :=
  ⟨(tables_wellformed [jobj []] [jobj []] [movie_to_row []]
      [genre_to_row []] rfl rfl).2.2.1 (movie_to_row []) (by simp),
   (tables_wellformed [jobj []] [jobj []] [movie_to_row []]
      [genre_to_row []] rfl rfl).2.2.2 (genre_to_row []) (by simp)⟩
